import Mathlib

/-!
Shallow embedding of the finding normalization and aggregation engine of the
cloud_Scanener repository, together with theorems settling the frozen claims
about it.

The embedded source functions are:
* `CloudSploitScanner._determine_severity`  (src/scanners/cloudsploit_scanner.py)
* `CloudSploitScanner._parse_cloudsploit_output`  (src/scanners/cloudsploit_scanner.py)
* `ProwlerScanner._parse_prowler_output`  (src/scanners/prowler_scanner.py)
* `ScannerOrchestrator._scan_provider`, `_update_summary`, `get_summary`
  (src/core/orchestrator.py)
* `ReportGenerator._calculate_risk_level`  (src/html_report_maker/report_generator.py)

JSON string-valued fields are modelled as `Option String` (absent key = `none`);
a Python dictionary `.get(key, default)` becomes `Option.getD`.  Fields of the
raw dictionaries that the embedded functions never read are omitted.
-/

namespace CloudScanner

/-- Lowercasing, modelling Python's `str.lower()` on the ASCII text the
classifier handles.  (Defined over the character list so that it reduces in
the kernel; `String.toLower` is defined by well-founded recursion.) -/
def strLower (s : String) : String :=
  ⟨s.data.map Char.toLower⟩

/-- Uppercasing, modelling Python's `str.upper()` on ASCII text. -/
def strUpper (s : String) : String :=
  ⟨s.data.map Char.toUpper⟩

/-- Substring test: `containsSub text kw` models Python's `kw in text`
(substring containment, true for the empty needle). -/
def containsSub (text kw : String) : Bool :=
  text.data.tails.any (fun t => kw.data.isPrefixOf t)

/-- Status value of a raw result: CloudSploit raw JSON may carry a string
status (the only kind the parser retains) or a numeric status code. -/
inductive StatusVal where
  | str (s : String)
  | num (n : Int)
deriving DecidableEq, Repr

/-- Raw CloudSploit result dictionary: the fields `_determine_severity` and
`_parse_cloudsploit_output` read.  `none` models an absent key. -/
structure RawResult where
  status : Option StatusVal := none
  severity : Option String := none
  plugin : Option String := none
  title : Option String := none
  category : Option String := none
  message : Option String := none
  resource : Option String := none
  region : Option String := none
deriving DecidableEq, Repr

/-- Critical-tier keywords, from `_determine_severity`. -/
def critical_keywords : List String :=
  ["exposed", "public", "encryption disabled", "mfa disabled", "no encryption",
   "open to world"]

/-- High-tier keywords, from `_determine_severity`. -/
def high_keywords : List String :=
  ["vulnerable", "insecure", "weak", "misconfigured", "missing encryption",
   "unencrypted"]

/-- Low-tier keywords, from `_determine_severity`. -/
def low_keywords : List String :=
  ["logging", "monitoring", "tag", "label"]

/-- Concatenated lowercased text, from `_determine_severity`:
`text = f"{plugin_name} {title} {message}"` after each part was lowercased,
with `''` as the default for an absent field. -/
def severityText (result : RawResult) : String :=
  strLower (result.plugin.getD "") ++ " " ++ strLower (result.title.getD "")
    ++ " " ++ strLower (result.message.getD "")

/-- Tier test, from `_determine_severity`:
`any(keyword in text for keyword in keywords)`. -/
def matchesTier (keywords : List String) (text : String) : Bool :=
  keywords.any (fun k => containsSub text k)

/-- Keyword fallback of `_determine_severity`: the ordered scan critical,
high, low, default medium. -/
def keywordSeverity (result : RawResult) : String :=
  let text := severityText result
  if matchesTier critical_keywords text then "critical"
  else if matchesTier high_keywords text then "high"
  else if matchesTier low_keywords text then "low"
  else "medium"

/-- Embedding of `CloudSploitScanner._determine_severity`.  The explicit
`severity` field, lowercased, wins when it is one of the four levels;
otherwise execution falls through to the keyword scan. -/
def determineSeverity (result : RawResult) : String :=
  match result.severity with
  | some sv =>
    let severity := strLower sv
    if severity ∈ ["critical", "high", "medium", "low"] then severity
    else keywordSeverity result
  | none => keywordSeverity result

/-- Does the raw result carry a usable explicit severity (present and,
lowercased, one of the four levels)? -/
def usableExplicit (result : RawResult) : Bool :=
  match result.severity with
  | some sv => strLower sv ∈ ["critical", "high", "medium", "low"]
  | none => false

/-- Canonical finding record appended by `_parse_cloudsploit_output`. -/
structure Finding where
  plugin : String
  title : String
  category : String
  severity : String
  status : StatusVal
  message : String
  resource : String
  region : String
deriving DecidableEq, Repr

/-- Per-scanner summary dictionary built by both parsers (without the
`output_file`/`output_dir` path string, which no claim reads). -/
structure Summary (F : Type) where
  failed : Nat := 0
  critical : Nat := 0
  high : Nat := 0
  medium : Nat := 0
  low : Nat := 0
  findings : List F := []
deriving DecidableEq, Repr

/-- Sum of the four per-severity counts of a summary. -/
def sumSev {F : Type} (s : Summary F) : Nat :=
  s.critical + s.high + s.medium + s.low

/-- Increment `summary[severity]`, the per-severity counter selected by the
severity string.  `_determine_severity` only ever yields one of the four
levels, so the final (unreachable in the source) branch leaves the summary
unchanged. -/
def bumpSeverity {F : Type} (s : Summary F) (sev : String) : Summary F :=
  if sev = "critical" then { s with critical := s.critical + 1 }
  else if sev = "high" then { s with high := s.high + 1 }
  else if sev = "medium" then { s with medium := s.medium + 1 }
  else if sev = "low" then { s with low := s.low + 1 }
  else s

/-- Record one retained CloudSploit finding: `summary['failed'] += 1`,
`summary[severity] += 1`, `summary['findings'].append(...)`. -/
def recordFinding (s : Summary Finding) (f : Finding) : Summary Finding :=
  bumpSeverity
    { s with failed := s.failed + 1, findings := s.findings ++ [f] }
    f.severity

/-- Status normalization of `_parse_cloudsploit_output`:
`status in ['FAIL', 'WARN', 'UNKNOWN']`.  A numeric status code never equals
one of these strings, so it is never retained. -/
def statusRetained : StatusVal → Bool
  | .str s => ["FAIL", "WARN", "UNKNOWN"].contains s
  | .num _ => false

/-- Element of a top-level JSON array: a result dictionary, or a non-dict
JSON value that the loop skips (`if not isinstance(result, dict): continue`). -/
inductive ArrElem where
  | dict (result : RawResult)
  | nondict
deriving DecidableEq, Repr

/-- Value under one key of a keyed-object output: a plugin dictionary (whose
own fields are a `RawResult`, with the optional nested `results` list held
alongside), or a non-dict value that the loop skips. -/
inductive ObjVal where
  | pdict (fields : RawResult) (results : Option (List RawResult))
  | nondict
deriving DecidableEq, Repr

/-- Parsed JSON value handed to `_parse_cloudsploit_output`: a top-level
array, a top-level object, or any other JSON value (which produces no
findings). -/
inductive JVal where
  | arr (elems : List ArrElem)
  | obj (entries : List (String × ObjVal))
  | other
deriving DecidableEq, Repr

/-- Array-shape loop body of `_parse_cloudsploit_output`. -/
def processArrayElem (summary : Summary Finding) : ArrElem → Summary Finding
  | .nondict => summary
  | .dict result =>
    let status := result.status.getD (.str "UNKNOWN")
    if statusRetained status then
      let severity := determineSeverity result
      recordFinding summary
        { plugin := result.plugin.getD "N/A"
          title := result.title.getD "N/A"
          category := result.category.getD "N/A"
          severity := severity
          status := status
          message := result.message.getD "N/A"
          resource := result.resource.getD "N/A"
          region := result.region.getD "global" }
    else summary

/-- Nested-results loop body of the keyed-object shape (sub-shape with a
`results` list); `plugin_name` keys the entry and `entryCategory` is the
enclosing plugin dictionary's `category`. -/
def processNestedResult (plugin_name entryCategory : String)
    (summary : Summary Finding) (result : RawResult) : Summary Finding :=
  let status := result.status.getD (.str "UNKNOWN")
  if statusRetained status then
    let severity := determineSeverity result
    recordFinding summary
      { plugin := plugin_name
        title := result.title.getD plugin_name
        category := entryCategory
        severity := severity
        status := status
        message := result.message.getD "N/A"
        resource := result.resource.getD "N/A"
        region := result.region.getD "global" }
  else summary

/-- Keyed-object loop body of `_parse_cloudsploit_output`: dispatch on
`'status' in plugin_data`, then on `'results' in plugin_data`; entries that
are not dictionaries, or have neither key, contribute nothing. -/
def processObjEntry (summary : Summary Finding) (plugin_name : String) :
    ObjVal → Summary Finding
  | .nondict => summary
  | .pdict fields results =>
    if fields.status.isSome then
      let status := fields.status.getD (.str "UNKNOWN")
      if statusRetained status then
        let severity := determineSeverity fields
        recordFinding summary
          { plugin := plugin_name
            title := fields.title.getD plugin_name
            category := fields.category.getD "N/A"
            severity := severity
            status := status
            message := fields.message.getD "N/A"
            resource := fields.resource.getD "N/A"
            region := fields.region.getD "global" }
      else summary
    else
      match results with
      | some rs =>
        rs.foldl (processNestedResult plugin_name (fields.category.getD "N/A"))
          summary
      | none => summary

/-- Body of `_parse_cloudsploit_output` on a successfully loaded JSON value. -/
def parseCloudSploitData : JVal → Summary Finding
  | .arr elems => elems.foldl processArrayElem {}
  | .obj entries => entries.foldl (fun acc e => processObjEntry acc e.1 e.2) {}
  | .other => {}

/-- Input situation of a parse call: the output file is missing, the file
cannot be read or loaded as JSON (the exception handler turns this into an
error dictionary), or a JSON value was loaded. -/
inductive ParseInput (D : Type) where
  | missing
  | unreadable (msg : String)
  | data (d : D)

/-- Result dictionary of a parse call: a summary, or an error dictionary. -/
inductive ParseResult (F : Type) where
  | ok (s : Summary F)
  | err (msg : String)
deriving DecidableEq, Repr

/-- Embedding of `CloudSploitScanner._parse_cloudsploit_output`: a missing
output file yields the empty summary; a read/JSON failure is caught and
returned as an error dictionary; otherwise the loaded value is traversed. -/
def parseCloudSploitOutput : ParseInput JVal → ParseResult Finding
  | .missing => .ok {}
  | .unreadable msg => .err ("Failed to parse results: " ++ msg)
  | .data d => .ok (parseCloudSploitData d)

/-- Raw Prowler OCSF finding: the fields `_parse_prowler_output` reads.  The
nested accesses are flattened: `event_code` stands for
`metadata.event_code`, `resource_uid` for `resources[0].uid`,
`remediation_desc` for `remediation.desc`, `region` for `cloud.region`. -/
structure ProwlerRaw where
  status_code : Option String := none
  severity : Option String := none
  event_code : Option String := none
  message : Option String := none
  status_detail : Option String := none
  resource_uid : Option String := none
  region : Option String := none
  remediation_desc : Option String := none
deriving DecidableEq, Repr

/-- Finding record appended by `_parse_prowler_output`. -/
structure PFinding where
  check_id : String
  check_title : String
  severity : String
  status : String
  resource : String
  region : String
  description : String
  remediation : String
deriving DecidableEq, Repr

/-- Loop body of `_parse_prowler_output`: only findings whose uppercased
`status_code` is `FAIL` are counted and stored, and only the four recognized
lowercased severities increment a per-severity counter. -/
def processProwlerFinding (summary : Summary PFinding) (finding : ProwlerRaw) :
    Summary PFinding :=
  let status_code := strUpper (finding.status_code.getD "")
  let severity := strLower (finding.severity.getD "")
  if status_code = "FAIL" then
    let s :=
      if severity = "critical" then { summary with critical := summary.critical + 1 }
      else if severity = "high" then { summary with high := summary.high + 1 }
      else if severity = "medium" then { summary with medium := summary.medium + 1 }
      else if severity = "low" then { summary with low := summary.low + 1 }
      else summary
    { s with findings := s.findings ++
        [{ check_id := finding.event_code.getD "N/A"
           check_title := finding.message.getD "N/A"
           severity := severity
           status := status_code
           resource := finding.resource_uid.getD "N/A"
           region := finding.region.getD "N/A"
           description := finding.status_detail.getD "N/A"
           remediation := finding.remediation_desc.getD "N/A" }] }
  else summary

/-- Body of `_parse_prowler_output` on a loaded findings list:
`failed` is set to `len(findings)` up front, then the loop runs. -/
def parseProwlerFindings (findings : List ProwlerRaw) : Summary PFinding :=
  findings.foldl processProwlerFinding { failed := findings.length }

/-- Embedding of `ProwlerScanner._parse_prowler_output`: no JSON output file
found yields the empty summary; a read/JSON failure is caught and returned as
an error dictionary; otherwise the findings list is traversed. -/
def parseProwlerOutput : ParseInput (List ProwlerRaw) → ParseResult PFinding
  | .missing => .ok {}
  | .unreadable msg => .err ("Failed to parse results: " ++ msg)
  | .data findings => .ok (parseProwlerFindings findings)

/-- Per-provider summary dictionary initialized by `_scan_provider`. -/
structure Counts where
  failed : Nat := 0
  critical : Nat := 0
  high : Nat := 0
  medium : Nat := 0
  low : Nat := 0
deriving DecidableEq, Repr

/-- Sum of the four per-severity counts of an orchestrator summary. -/
def sumCounts (c : Counts) : Nat :=
  c.critical + c.high + c.medium + c.low

/-- Embedding of `ScannerOrchestrator._update_summary`: a result dictionary
with an `error` key contributes nothing; one with a `failed` key has its five
counters added into the summary. -/
def updateSummary {F : Type} (summary : Counts) (results : ParseResult F) :
    Counts :=
  match results with
  | .err _ => summary
  | .ok s =>
    { failed := summary.failed + s.failed
      critical := summary.critical + s.critical
      high := summary.high + s.high
      medium := summary.medium + s.medium
      low := summary.low + s.low }

/-- Per-provider result dictionary built by `_scan_provider`.  A scanner's
entry is `none` when that scanner is disabled; a scanner that raised is
stored as an error dictionary, exactly like a scan that returned one. -/
structure ProviderResults where
  provider : String
  prowler : Option (ParseResult PFinding)
  cloudsploit : Option (ParseResult Finding)
  summary : Counts
deriving DecidableEq, Repr

/-- Embedding of `ScannerOrchestrator._scan_provider`: start from the zero
summary, store each enabled scanner's result under its own key and fold it
into the summary via `_update_summary`. -/
def scanProvider (provider : String)
    (prowlerRes : Option (ParseResult PFinding))
    (cloudsploitRes : Option (ParseResult Finding)) : ProviderResults :=
  let s0 : Counts := {}
  let s1 := match prowlerRes with
    | some r => updateSummary s0 r
    | none => s0
  let s2 := match cloudsploitRes with
    | some r => updateSummary s1 r
    | none => s1
  { provider := provider
    prowler := prowlerRes
    cloudsploit := cloudsploitRes
    summary := s2 }

/-- Overall summary dictionary built by `get_summary`. -/
structure OverallSummary where
  failed : Nat := 0
  critical : Nat := 0
  high : Nat := 0
  medium : Nat := 0
  low : Nat := 0
  providers_scanned : List String := []
deriving DecidableEq, Repr

/-- Loop body of `get_summary`, folding one provider's summary (stored under
its provider name in `self.results`) into the overall summary. -/
def foldProvider (overall : OverallSummary) (entry : String × Counts) :
    OverallSummary :=
  { failed := overall.failed + entry.2.failed
    critical := overall.critical + entry.2.critical
    high := overall.high + entry.2.high
    medium := overall.medium + entry.2.medium
    low := overall.low + entry.2.low
    providers_scanned := overall.providers_scanned ++ [entry.1] }

/-- Embedding of `ScannerOrchestrator.get_summary`: `self.results` is a
mapping provider name to per-provider results, modelled as the association
list of providers with their summary counts in iteration order. -/
def getSummary (results : List (String × Counts)) : OverallSummary :=
  results.foldl foldProvider {}

/-- Embedding of `ReportGenerator._calculate_risk_level`: the ordered
decision list over the aggregated severity counts. -/
def calculateRiskLevel (summary : Counts) : String :=
  if summary.critical > 0 then "Critical Risk"
  else if summary.high ≥ 5 then "High Risk"
  else if summary.high > 0 ∨ summary.medium ≥ 10 then "Medium Risk"
  else if summary.medium > 0 ∨ summary.low > 0 then "Low Risk"
  else "No Issues"

/-! ## Helper lemmas -/

/-- When the explicit severity is absent or unusable, `_determine_severity`
falls through to the keyword scan. -/
theorem determineSeverity_of_not_usable (r : RawResult)
    (h : usableExplicit r = false) :
    determineSeverity r = keywordSeverity r := by
  unfold determineSeverity
  unfold usableExplicit at h
  cases hr : r.severity with
  | none => rfl
  | some sv =>
    rw [hr] at h
    have h' : strLower sv ∉ ["critical", "high", "medium", "low"] :=
      of_decide_eq_false h
    simp only [if_neg h']

/-- The keyword scan returns `critical` as soon as the critical tier hits. -/
theorem keywordSeverity_critical (r : RawResult)
    (h : matchesTier critical_keywords (severityText r) = true) :
    keywordSeverity r = "critical" := by
  unfold keywordSeverity
  simp only [h, if_true]

/-- The keyword scan returns `high` when the critical tier misses and the
high tier hits. -/
theorem keywordSeverity_high (r : RawResult)
    (h1 : matchesTier critical_keywords (severityText r) = false)
    (h2 : matchesTier high_keywords (severityText r) = true) :
    keywordSeverity r = "high" := by
  unfold keywordSeverity
  simp only [h1, h2, if_true, if_false, Bool.false_eq_true]

/-- The keyword scan returns `low` when the critical and high tiers miss and
the low tier hits. -/
theorem keywordSeverity_low (r : RawResult)
    (h1 : matchesTier critical_keywords (severityText r) = false)
    (h2 : matchesTier high_keywords (severityText r) = false)
    (h3 : matchesTier low_keywords (severityText r) = true) :
    keywordSeverity r = "low" := by
  unfold keywordSeverity
  simp only [h1, h2, h3, if_true, if_false, Bool.false_eq_true]

/-- The keyword scan defaults to `medium` when every tier misses. -/
theorem keywordSeverity_medium (r : RawResult)
    (h1 : matchesTier critical_keywords (severityText r) = false)
    (h2 : matchesTier high_keywords (severityText r) = false)
    (h3 : matchesTier low_keywords (severityText r) = false) :
    keywordSeverity r = "medium" := by
  unfold keywordSeverity
  simp only [h1, h2, h3, if_false, Bool.false_eq_true]

/-- A tier matches whenever one of its keywords occurs in the text. -/
theorem matchesTier_of_mem {kws : List String} {text kw : String}
    (hmem : kw ∈ kws) (h : containsSub text kw = true) :
    matchesTier kws text = true := by
  unfold matchesTier
  rw [List.any_eq_true]
  exact ⟨kw, hmem, h⟩

/-! ## C1 -/

/-- C1: the risk level follows the ordered decision list evaluated top to
bottom with first match winning: `critical > 0` yields Critical; otherwise
`high >= 5` yields High; otherwise `high > 0` or `medium >= 10` yields
Medium; otherwise `medium > 0` or `low > 0` yields Low; otherwise NoIssues
(the source renders the levels as the strings "Critical Risk", …,
"No Issues").  In particular any summary with a critical finding yields
Critical regardless of the other counts. -/
theorem C1_risk_level_decision_list (s : Counts) :
    (0 < s.critical → calculateRiskLevel s = "Critical Risk") ∧
    (s.critical = 0 → 5 ≤ s.high → calculateRiskLevel s = "High Risk") ∧
    (s.critical = 0 → s.high < 5 → (0 < s.high ∨ 10 ≤ s.medium) →
      calculateRiskLevel s = "Medium Risk") ∧
    (s.critical = 0 → s.high = 0 → s.medium < 10 →
      (0 < s.medium ∨ 0 < s.low) → calculateRiskLevel s = "Low Risk") ∧
    (s.critical = 0 → s.high = 0 → s.medium = 0 → s.low = 0 →
      calculateRiskLevel s = "No Issues") := by
  unfold calculateRiskLevel
  refine ⟨?_, ?_, ?_, ?_, ?_⟩
  · intro h
    rw [if_pos h]
  · intro h1 h2
    rw [if_neg (by omega), if_pos h2]
  · intro h1 h2 h3
    rw [if_neg (by omega), if_neg (by omega), if_pos h3]
  · intro h1 h2 h3 h4
    rw [if_neg (by omega), if_neg (by omega), if_neg (by omega), if_pos h4]
  · intro h1 h2 h3 h4
    rw [if_neg (by omega), if_neg (by omega), if_neg (by omega),
      if_neg (by omega)]

/-- Witness for C1: a summary with one critical finding and large other
counts is rated Critical. -/
theorem C1_witness : calculateRiskLevel ⟨3, 1, 7, 20, 5⟩ = "Critical Risk" :=
  (C1_risk_level_decision_list ⟨3, 1, 7, 20, 5⟩).1 (by decide)

/-! ## C2 -/

/-- C2: a present explicit severity that is, case-insensitively, one of
critical/high/medium/low is returned (lowercased) and the keyword heuristic
is never applied, whatever keywords appear in the plugin name, title or
message. -/
theorem C2_explicit_severity_wins (r : RawResult) (sv : String)
    (hs : r.severity = some sv)
    (hmem : strLower sv ∈ ["critical", "high", "medium", "low"]) :
    determineSeverity r = strLower sv := by
  unfold determineSeverity
  rw [hs]
  simp only [if_pos hmem]

/-- Witness for C2: an explicit severity "High" wins over message text whose
keyword "public" would otherwise classify as critical. -/
theorem C2_witness :
    determineSeverity
      { severity := some "High"
        message := some "some random vulnerable public text" } = "high" :=
  C2_explicit_severity_wins _ "High" rfl (by decide)

/-! ## C3 -/

/-- C3: with no usable explicit severity, the keyword scan over the
concatenated lowercased text is evaluated in the fixed tier order critical,
high, low, default medium, first matching tier winning. -/
theorem C3_keyword_tier_order (r : RawResult)
    (h : usableExplicit r = false) :
    (matchesTier critical_keywords (severityText r) = true →
      determineSeverity r = "critical") ∧
    (matchesTier critical_keywords (severityText r) = false →
      matchesTier high_keywords (severityText r) = true →
      determineSeverity r = "high") ∧
    (matchesTier critical_keywords (severityText r) = false →
      matchesTier high_keywords (severityText r) = false →
      matchesTier low_keywords (severityText r) = true →
      determineSeverity r = "low") ∧
    (matchesTier critical_keywords (severityText r) = false →
      matchesTier high_keywords (severityText r) = false →
      matchesTier low_keywords (severityText r) = false →
      determineSeverity r = "medium") := by
  rw [determineSeverity_of_not_usable r h]
  exact ⟨keywordSeverity_critical r, keywordSeverity_high r,
    keywordSeverity_low r, keywordSeverity_medium r⟩

/-- Witness for C3: "weak exposed logging bucket" contains a critical, a
high and a low keyword and resolves to critical. -/
theorem C3_witness :
    determineSeverity { message := some "weak exposed logging bucket" }
      = "critical" :=
  (C3_keyword_tier_order { message := some "weak exposed logging bucket" }
    (by decide)).1 (by decide)

/-! ## C5 -/

/-- Counterexample for C5: the high tier of the source has no bare
"missing" keyword, so the text "missing backup" (which contains "missing",
no critical keyword, and no keyword of any tier of the source) classifies
as medium, not high. -/
theorem C5_counterexample :
    usableExplicit { message := some "missing backup" } = false ∧
    containsSub (severityText { message := some "missing backup" })
      "missing" = true ∧
    matchesTier critical_keywords
      (severityText { message := some "missing backup" }) = false ∧
    determineSeverity { message := some "missing backup" } = "medium" := by
  decide

/-- C5 as amended: the high tier is exactly
{vulnerable, insecure, weak, misconfigured, missing encryption, unencrypted}
— without a bare "missing" entry — and a result with no usable explicit
severity whose text contains "missing encryption" and no critical-tier
keyword classifies as high. -/
theorem C5_high_tier_amended :
    high_keywords = ["vulnerable", "insecure", "weak", "misconfigured",
      "missing encryption", "unencrypted"] ∧
    ∀ r : RawResult, usableExplicit r = false →
      containsSub (severityText r) "missing encryption" = true →
      matchesTier critical_keywords (severityText r) = false →
      determineSeverity r = "high" := by
  refine ⟨rfl, fun r h hsub hcrit => ?_⟩
  rw [determineSeverity_of_not_usable r h]
  exact keywordSeverity_high r hcrit
    (matchesTier_of_mem (by decide) hsub)

/-- Witness for C5 (amended): text containing "missing encryption" and no
critical keyword classifies as high. -/
theorem C5_witness :
    determineSeverity { message := some "missing encryption at rest" }
      = "high" :=
  C5_high_tier_amended.2 { message := some "missing encryption at rest" }
    (by decide) (by decide) (by decide)

/-! ## Invariant machinery for C4 -/

/-- The keyword scan only ever yields one of the four severity levels. -/
theorem keywordSeverity_mem (r : RawResult) :
    keywordSeverity r ∈ ["critical", "high", "medium", "low"] := by
  cases h1 : matchesTier critical_keywords (severityText r) with
  | true => rw [keywordSeverity_critical r h1]; simp
  | false =>
    cases h2 : matchesTier high_keywords (severityText r) with
    | true => rw [keywordSeverity_high r h1 h2]; simp
    | false =>
      cases h3 : matchesTier low_keywords (severityText r) with
      | true => rw [keywordSeverity_low r h1 h2 h3]; simp
      | false => rw [keywordSeverity_medium r h1 h2 h3]; simp

/-- `_determine_severity` only ever yields one of the four severity levels. -/
theorem determineSeverity_mem (r : RawResult) :
    determineSeverity r ∈ ["critical", "high", "medium", "low"] := by
  unfold determineSeverity
  cases hr : r.severity with
  | none => exact keywordSeverity_mem r
  | some sv =>
    by_cases h : strLower sv ∈ ["critical", "high", "medium", "low"]
    · simp only [if_pos h]
      exact h
    · simp only [if_neg h]
      exact keywordSeverity_mem r

/-- Bumping a per-severity counter never changes the `failed` counter. -/
theorem bumpSeverity_failed {F : Type} (s : Summary F) (sev : String) :
    (bumpSeverity s sev).failed = s.failed := by
  unfold bumpSeverity
  repeat' split
  all_goals rfl

/-- Bumping a per-severity counter never changes the findings list. -/
theorem bumpSeverity_findings {F : Type} (s : Summary F) (sev : String) :
    (bumpSeverity s sev).findings = s.findings := by
  unfold bumpSeverity
  repeat' split
  all_goals rfl

/-- Bumping a counter for one of the four levels raises the severity sum by
one. -/
theorem sumSev_bumpSeverity {F : Type} (s : Summary F) (sev : String)
    (h : sev ∈ ["critical", "high", "medium", "low"]) :
    sumSev (bumpSeverity s sev) = sumSev s + 1 := by
  unfold bumpSeverity sumSev
  simp only [List.mem_cons, List.mem_singleton, List.not_mem_nil, or_false] at h
  rcases h with rfl | rfl | rfl | rfl
  · rw [if_pos rfl]
    dsimp only
    omega
  · rw [if_neg (by decide), if_pos rfl]
    dsimp only
    omega
  · rw [if_neg (by decide), if_neg (by decide), if_pos rfl]
    dsimp only
    omega
  · rw [if_neg (by decide), if_neg (by decide), if_neg (by decide),
      if_pos rfl]
    dsimp only
    omega

/-- Recording a finding whose severity came from `_determine_severity`
raises `failed` and the severity sum together. -/
theorem recordFinding_inv (s : Summary Finding) (f : Finding)
    (hsev : f.severity ∈ ["critical", "high", "medium", "low"])
    (h : sumSev s = s.failed) :
    sumSev (recordFinding s f) = (recordFinding s f).failed := by
  unfold recordFinding
  rw [sumSev_bumpSeverity _ _ hsev, bumpSeverity_failed]
  simpa [sumSev] using h

/-- A fold preserves any invariant its step preserves. -/
theorem foldl_inv {α β : Type} (P : α → Prop) (step : α → β → α)
    (hstep : ∀ a b, P a → P (step a b)) :
    ∀ (l : List β) (init : α), P init → P (l.foldl step init) := by
  intro l
  induction l with
  | nil => exact fun init h => h
  | cons x xs ih => exact fun init h => ih _ (hstep _ _ h)

/-- A fold over elements each satisfying `Q` preserves any invariant its
step preserves on such elements. -/
theorem foldl_inv_mem {α β : Type} (P : α → Prop) (Q : β → Prop)
    (step : α → β → α) (hstep : ∀ a b, Q b → P a → P (step a b)) :
    ∀ l : List β, (∀ b ∈ l, Q b) → ∀ init : α, P init →
      P (l.foldl step init) := by
  intro l
  induction l with
  | nil => exact fun _ init h => h
  | cons x xs ih =>
    intro hq init h
    exact ih (fun b hb => hq b (List.mem_cons_of_mem _ hb)) _
      (hstep _ _ (hq x (List.mem_cons_self _ _)) h)

/-- The array-shape loop body preserves the severity-sum invariant. -/
theorem processArrayElem_inv (s : Summary Finding) (e : ArrElem)
    (h : sumSev s = s.failed) :
    sumSev (processArrayElem s e) = (processArrayElem s e).failed := by
  cases e with
  | nondict => exact h
  | dict r =>
    simp only [processArrayElem]
    split
    · apply recordFinding_inv
      · exact determineSeverity_mem r
      · exact h
    · exact h

/-- The nested-results loop body preserves the severity-sum invariant. -/
theorem processNestedResult_inv (plugin_name entryCategory : String)
    (s : Summary Finding) (r : RawResult) (h : sumSev s = s.failed) :
    sumSev (processNestedResult plugin_name entryCategory s r)
      = (processNestedResult plugin_name entryCategory s r).failed := by
  unfold processNestedResult
  dsimp only
  split
  · apply recordFinding_inv
    · exact determineSeverity_mem r
    · exact h
  · exact h

/-- The keyed-object loop body preserves the severity-sum invariant. -/
theorem processObjEntry_inv (s : Summary Finding) (plugin_name : String)
    (v : ObjVal) (h : sumSev s = s.failed) :
    sumSev (processObjEntry s plugin_name v)
      = (processObjEntry s plugin_name v).failed := by
  cases v with
  | nondict => exact h
  | pdict fields results =>
    simp only [processObjEntry]
    split
    · split
      · apply recordFinding_inv
        · exact determineSeverity_mem fields
        · exact h
      · exact h
    · cases results with
      | none => exact h
      | some rs =>
        exact foldl_inv (fun t => sumSev t = t.failed)
          (processNestedResult plugin_name (fields.category.getD "N/A"))
          (fun a b ha => processNestedResult_inv _ _ a b ha) rs s h

/-- One Prowler finding with uppercased status FAIL and a recognized
severity raises the severity sum by one and leaves `failed` unchanged. -/
theorem processProwlerFinding_step (s : Summary PFinding) (f : ProwlerRaw)
    (hst : strUpper (f.status_code.getD "") = "FAIL")
    (hsev : strLower (f.severity.getD "")
      ∈ ["critical", "high", "medium", "low"]) :
    sumSev (processProwlerFinding s f) = sumSev s + 1 ∧
    (processProwlerFinding s f).failed = s.failed := by
  unfold processProwlerFinding
  rw [if_pos hst]
  simp only [List.mem_cons, List.mem_singleton, List.not_mem_nil, or_false]
    at hsev
  rcases hsev with hv | hv | hv | hv <;>
    · rw [hv]
      simp [sumSev]
      omega

/-- Folding the Prowler loop over findings that all carry status FAIL and a
recognized severity raises the severity sum by the list length and keeps
`failed` fixed. -/
theorem prowler_fold_sum (l : List ProwlerRaw) :
    ∀ s : Summary PFinding,
      (∀ f ∈ l, strUpper (f.status_code.getD "") = "FAIL" ∧
        strLower (f.severity.getD "")
          ∈ ["critical", "high", "medium", "low"]) →
      sumSev (l.foldl processProwlerFinding s) = sumSev s + l.length ∧
      (l.foldl processProwlerFinding s).failed = s.failed := by
  induction l with
  | nil => intro s _; simp
  | cons f fs ih =>
    intro s h
    have hf := h f (List.mem_cons_self _ _)
    have hstep := processProwlerFinding_step s f hf.1 hf.2
    have hrest := ih (processProwlerFinding s f)
      (fun g hg => h g (List.mem_cons_of_mem _ hg))
    simp only [List.foldl_cons, List.length_cons]
    constructor
    · rw [hrest.1, hstep.1]
      omega
    · rw [hrest.2, hstep.2]

/-! ## C4 -/

/-- Counterexample for C4: `_parse_prowler_output` sets `failed` to the
length of the findings list, but a FAIL finding with the unrecognized
severity "informational" increments no per-severity counter, so the sum of
the four severity counts is 0 while `failed` is 1 — without any legacy
unknown-as-failed quirk involved. -/
theorem C4_counterexample :
    (parseProwlerFindings
      [{ status_code := some "FAIL", severity := some "informational" }]).failed
        = 1 ∧
    sumSev (parseProwlerFindings
      [{ status_code := some "FAIL", severity := some "informational" }])
        = 0 := by
  decide

/-- C4 as amended: the sum of the four per-severity counts equals `failed`
for every CloudSploit parse result (quirk cases included), and for a Prowler
parse result whenever every raw finding carries uppercased status FAIL and a
recognized severity; the invariant is preserved by provider-level
(`_update_summary`) and overall (`get_summary`) aggregation. -/
theorem C4_sum_severity_eq_failed_amended :
    (∀ d : JVal,
      sumSev (parseCloudSploitData d) = (parseCloudSploitData d).failed) ∧
    (∀ findings : List ProwlerRaw,
      (∀ f ∈ findings, strUpper (f.status_code.getD "") = "FAIL" ∧
        strLower (f.severity.getD "")
          ∈ ["critical", "high", "medium", "low"]) →
      sumSev (parseProwlerFindings findings)
        = (parseProwlerFindings findings).failed) ∧
    (∀ (F : Type) (c : Counts) (r : ParseResult F),
      sumCounts c = c.failed →
      (∀ s, r = .ok s → sumSev s = s.failed) →
      sumCounts (updateSummary c r) = (updateSummary c r).failed) ∧
    (∀ results : List (String × Counts),
      (∀ e ∈ results, sumCounts e.2 = e.2.failed) →
      (getSummary results).critical + (getSummary results).high
          + (getSummary results).medium + (getSummary results).low
        = (getSummary results).failed) := by
  refine ⟨?_, ?_, ?_, ?_⟩
  · intro d
    cases d with
    | arr elems =>
      exact foldl_inv (fun t => sumSev t = t.failed) _
        processArrayElem_inv elems {} rfl
    | obj entries =>
      exact foldl_inv (fun t => sumSev t = t.failed) _
        (fun a e ha => processObjEntry_inv a e.1 e.2 ha) entries {} rfl
    | other => rfl
  · intro findings h
    have := prowler_fold_sum findings { failed := findings.length } h
    unfold parseProwlerFindings
    rw [this.1, this.2]
    simp [sumSev]
  · intro F c r hc hr
    cases r with
    | err m => exact hc
    | ok s =>
      have hs := hr s rfl
      unfold updateSummary
      unfold sumCounts sumSev at *
      simp only
      omega
  · intro results h
    exact foldl_inv_mem
      (fun o : OverallSummary =>
        o.critical + o.high + o.medium + o.low = o.failed)
      (fun e : String × Counts => sumCounts e.2 = e.2.failed)
      foldProvider
      (fun o e he ho => by
        unfold foldProvider
        unfold sumCounts at he
        simp only
        omega)
      results h {} rfl

/-- Witness for C4 (amended): each component applied at a concrete input. -/
theorem C4_witness :
    sumSev (parseCloudSploitData
        (.arr [.dict { status := some (.str "FAIL"), title := some "weak" }]))
      = (parseCloudSploitData
        (.arr [.dict { status := some (.str "FAIL"), title := some "weak" }])).failed ∧
    sumSev (parseProwlerFindings
        [{ status_code := some "fail", severity := some "Critical" }])
      = (parseProwlerFindings
        [{ status_code := some "fail", severity := some "Critical" }]).failed ∧
    sumCounts (updateSummary ⟨2, 1, 1, 0, 0⟩
        (.ok ({ failed := 1, low := 1 } : Summary Finding)))
      = (updateSummary ⟨2, 1, 1, 0, 0⟩
        (.ok ({ failed := 1, low := 1 } : Summary Finding))).failed ∧
    (getSummary [("aws", ⟨2, 1, 1, 0, 0⟩)]).critical
        + (getSummary [("aws", ⟨2, 1, 1, 0, 0⟩)]).high
        + (getSummary [("aws", ⟨2, 1, 1, 0, 0⟩)]).medium
        + (getSummary [("aws", ⟨2, 1, 1, 0, 0⟩)]).low
      = (getSummary [("aws", ⟨2, 1, 1, 0, 0⟩)]).failed := by
  refine ⟨C4_sum_severity_eq_failed_amended.1 _,
    C4_sum_severity_eq_failed_amended.2.1 _ ?_,
    C4_sum_severity_eq_failed_amended.2.2.1 Finding _ _ (by decide) ?_,
    C4_sum_severity_eq_failed_amended.2.2.2 _ ?_⟩
  · intro f hf
    simp only [List.mem_singleton] at hf
    subst hf
    exact ⟨by decide, by decide⟩
  · intro s hs
    cases hs
    decide
  · intro e he
    simp only [List.mem_singleton] at he
    subst he
    decide

/-! ## C6 -/

/-- Counterexample for C6: a keyed-object entry whose single result carries
the numeric status code 2 (= FAIL) is dropped, not retained — the numeric
code is compared against the string list `['FAIL', 'WARN', 'UNKNOWN']` and
never matches, so the parse yields the empty summary. -/
theorem C6_counterexample :
    parseCloudSploitData
        (.obj [("plugin1", .pdict { status := some (.num 2) } none)])
      = ({} : Summary Finding) := by
  rfl

/-- C6 as amended: both keyed-object sub-shapes (single result object, and
nested `results` list) are handled, and string statuses follow the four-way
normalization (FAIL/WARN/UNKNOWN retained, anything else dropped), but
numeric status codes are not mapped onto it: every numeric status — 2 (FAIL)
and 0 (PASS) alike — is dropped. -/
theorem C6_keyed_status_amended (name : String) (fields : RawResult)
    (rs : Option (List RawResult)) :
    (∀ n : Int, fields.status = some (.num n) →
      parseCloudSploitData (.obj [(name, .pdict fields rs)])
        = ({} : Summary Finding)) ∧
    (∀ s : String, fields.status = some (.str s) →
      s ∈ ["FAIL", "WARN", "UNKNOWN"] →
      (parseCloudSploitData (.obj [(name, .pdict fields rs)])).failed = 1) ∧
    (∀ s : String, fields.status = some (.str s) →
      s ∉ ["FAIL", "WARN", "UNKNOWN"] →
      parseCloudSploitData (.obj [(name, .pdict fields rs)])
        = ({} : Summary Finding)) ∧
    (fields.status = none → ∀ r : RawResult,
      (∀ n : Int, r.status = some (.num n) →
        parseCloudSploitData (.obj [(name, .pdict fields (some [r]))])
          = ({} : Summary Finding)) ∧
      (∀ s : String, r.status = some (.str s) →
        s ∈ ["FAIL", "WARN", "UNKNOWN"] →
        (parseCloudSploitData
          (.obj [(name, .pdict fields (some [r]))])).failed = 1)) := by
  refine ⟨?_, ?_, ?_, ?_⟩
  · intro n hn
    simp [parseCloudSploitData, processObjEntry, hn, statusRetained]
  · intro s hs hmem
    have hret : statusRetained (.str s) = true := by
      simpa [statusRetained] using List.elem_eq_true_of_mem hmem
    simp only [parseCloudSploitData, List.foldl, processObjEntry, hs,
      Option.isSome_some, if_true, Option.getD_some, hret]
    rw [recordFinding, bumpSeverity_failed]
  · intro s hs hmem
    have hret : statusRetained (.str s) = false := by
      simpa [statusRetained] using hmem
    simp [parseCloudSploitData, processObjEntry, hs, hret]
  · intro hnone r
    constructor
    · intro n hn
      simp [parseCloudSploitData, processObjEntry, hnone, hn,
        processNestedResult, statusRetained]
    · intro s hs hmem
      have hret : statusRetained (.str s) = true := by
        simpa [statusRetained] using List.elem_eq_true_of_mem hmem
      simp only [parseCloudSploitData, List.foldl, processObjEntry, hnone,
        Option.isSome_none, Bool.false_eq_true, if_false,
        processNestedResult, hs, Option.getD_some, hret, if_true]
      rw [recordFinding, bumpSeverity_failed]

/-- Witness for C6 (amended): a numeric status 2 is dropped and a string
status "FAIL" is retained, in both sub-shapes. -/
theorem C6_witness :
    parseCloudSploitData
        (.obj [("p1", .pdict { status := some (.num 2) } (some []))])
      = ({} : Summary Finding) ∧
    (parseCloudSploitData
        (.obj [("p2", .pdict { status := some (.str "FAIL") } none)])).failed
      = 1 ∧
    (parseCloudSploitData
        (.obj [("p3", .pdict {} (some [{ status := some (.str "FAIL") }]))])).failed
      = 1 :=
  ⟨(C6_keyed_status_amended "p1" { status := some (.num 2) } (some [])).1
      2 rfl,
   (C6_keyed_status_amended "p2" { status := some (.str "FAIL") } none).2.1
      "FAIL" rfl (by decide),
   ((C6_keyed_status_amended "p3" {} (some [{ status := some (.str "FAIL") }])).2.2.2
      rfl { status := some (.str "FAIL") }).2 "FAIL" rfl (by decide)⟩

/-! ## C7 -/

/-- Counterexample for C7: an unreadable raw output (the read or JSON load
raised) is reported as an error dictionary by `_parse_cloudsploit_output`,
not returned as an empty zero-count summary. -/
theorem C7_counterexample :
    parseCloudSploitOutput (.unreadable "Expecting value")
      = .err "Failed to parse results: Expecting value" := by
  rfl

/-- C7 as amended: a missing raw output yields a summary with `failed = 0`,
all four severity counts 0, an empty findings list and no error entry, for
both adapters; an unreadable raw output (read/JSON failure), however, is
returned as an error dictionary. -/
theorem C7_missing_output_amended :
    parseCloudSploitOutput .missing
      = .ok ({ failed := 0, critical := 0, high := 0, medium := 0, low := 0,
               findings := [] } : Summary Finding) ∧
    parseProwlerOutput .missing
      = .ok ({ failed := 0, critical := 0, high := 0, medium := 0, low := 0,
               findings := [] } : Summary PFinding) ∧
    (∀ msg, ∃ e, parseCloudSploitOutput (.unreadable msg) = .err e) ∧
    (∀ msg, ∃ e, parseProwlerOutput (.unreadable msg) = .err e) :=
  ⟨rfl, rfl, fun msg => ⟨"Failed to parse results: " ++ msg, rfl⟩,
    fun msg => ⟨"Failed to parse results: " ++ msg, rfl⟩⟩

/-! ## C8 -/

/-- C8: a scanner result that is an error is recorded under that scanner's
own entry and contributes nothing to the provider summary, while the other
scanner's counts are still fully included; a complete provider summary is
produced in every case. -/
theorem C8_scanner_error_isolated (provider m m' : String)
    (c : Option (ParseResult Finding)) (p : Option (ParseResult PFinding))
    (s : Summary Finding) (sp : Summary PFinding) :
    ((scanProvider provider (some (.err m)) c).summary
        = (scanProvider provider none c).summary ∧
     (scanProvider provider (some (.err m)) c).prowler = some (.err m)) ∧
    ((scanProvider provider p (some (.err m'))).summary
        = (scanProvider provider p none).summary ∧
     (scanProvider provider p (some (.err m'))).cloudsploit
        = some (.err m')) ∧
    ((scanProvider provider (some (.err m)) (some (.ok s))).summary
        = ⟨s.failed, s.critical, s.high, s.medium, s.low⟩) ∧
    ((scanProvider provider (some (.ok sp)) (some (.err m'))).summary
        = ⟨sp.failed, sp.critical, sp.high, sp.medium, sp.low⟩) := by
  refine ⟨⟨rfl, rfl⟩, ⟨?_, rfl⟩, ?_, ?_⟩
  · cases p with
    | none => rfl
    | some r => cases r <;> rfl
  · simp [scanProvider, updateSummary]
  · simp [scanProvider, updateSummary]

/-! ## C9 -/

/-- C9: folding two provider summaries into the overall summary in either
order yields the same `failed` count, the same four per-severity counts, and
the same set of providers scanned. -/
theorem C9_overall_aggregation_commutative (a b : String × Counts) :
    (getSummary [a, b]).failed = (getSummary [b, a]).failed ∧
    (getSummary [a, b]).critical = (getSummary [b, a]).critical ∧
    (getSummary [a, b]).high = (getSummary [b, a]).high ∧
    (getSummary [a, b]).medium = (getSummary [b, a]).medium ∧
    (getSummary [a, b]).low = (getSummary [b, a]).low ∧
    (∀ p : String, p ∈ (getSummary [a, b]).providers_scanned ↔
      p ∈ (getSummary [b, a]).providers_scanned) := by
  refine ⟨?_, ?_, ?_, ?_, ?_, ?_⟩ <;>
    simp only [getSummary, List.foldl_cons, List.foldl_nil, foldProvider]
  · omega
  · omega
  · omega
  · omega
  · omega
  · intro p
    simp only [List.nil_append, List.cons_append, List.mem_cons,
      List.not_mem_nil, or_false, List.mem_singleton]
    tauto

/-! ## C10 -/

/-- C10: a raw result object with no `status` key at all is treated as
UNKNOWN and retained — `failed` is incremented, a severity is assigned by
the classifier, and a finding is appended — both for an element of an
array-shape output and for an element of a keyed-object entry's nested
`results` list. -/
theorem C10_statusless_retained (r : RawResult) (name : String)
    (h : r.status = none) :
    ((parseCloudSploitData (.arr [.dict r])).failed = 1 ∧
     (parseCloudSploitData (.arr [.dict r])).findings.map
         (fun f => (f.severity, f.status))
       = [(determineSeverity r, .str "UNKNOWN")]) ∧
    ((parseCloudSploitData (.obj [(name, .pdict {} (some [r]))])).failed = 1 ∧
     (parseCloudSploitData
         (.obj [(name, .pdict {} (some [r]))])).findings.map
         (fun f => (f.severity, f.status))
       = [(determineSeverity r, .str "UNKNOWN")]) := by
  have hret : statusRetained (.str "UNKNOWN") = true := by decide
  constructor
  · simp only [parseCloudSploitData, List.foldl, processArrayElem, h,
      Option.getD_none, hret, if_true]
    rw [recordFinding, bumpSeverity_failed, bumpSeverity_findings]
    exact ⟨rfl, rfl⟩
  · simp only [parseCloudSploitData, List.foldl, processObjEntry,
      Option.isSome_none, Bool.false_eq_true, if_false, processNestedResult,
      h, Option.getD_none, hret, if_true]
    rw [recordFinding, bumpSeverity_failed, bumpSeverity_findings]
    exact ⟨rfl, rfl⟩

/-- Witness for C10: the empty raw result (no keys at all) is retained with
status UNKNOWN and classifier severity medium. -/
theorem C10_witness :
    (parseCloudSploitData (.arr [.dict ({} : RawResult)])).failed = 1 :=
  (C10_statusless_retained {} "p1" rfl).1.1

end CloudScanner
